import Mathlib

/-
Verification of the multi-transport MCP connection runtime
(obsidian-mcp-client): shallow embedding of the core data model and
operations, with theorems settling the frozen specification claims.

Components embedded:
- WebSocketTransport (src/mcpclient/plugins/websocket/WebSocketTransport.ts):
  JSON-RPC message validation, reconnect backoff, outbound message queue.
- McpClient (src/mcpclient/core/McpClient.ts): connect single-flight guard,
  failure cleanup, primitives cache.
- PluginRegistry (src/mcpclient/core/PluginRegistry.ts): registration and
  lazy plugin initialization.
- StdioPlugin (src/mcpclient/plugins/stdio/StdioPlugin.ts): child-process
  lifecycle on connect and disconnect.
-/

namespace WebSocketTransport

/-- Shape of a parsed inbound payload as observed by the validation code:
whether the parsed value is an object, the value of its jsonrpc field when
present, and presence of the method, id, result and error fields
(the validator only tests presence with the in operator). -/
structure WireMessage where
  isObject : Bool
  jsonrpc : Option String
  hasMethod : Bool
  hasId : Bool
  hasResult : Bool
  hasError : Bool
deriving DecidableEq, Repr

/-- Translation of WebSocketTransport.isValidJSONRPCMessage
(WebSocketTransport.ts lines 221-245): requires an object with
jsonrpc equal to the string 2.0, and the disjunction
isRequest or isNotification or isResponse, where
isRequest = hasMethod and hasId, isNotification = hasMethod and not hasId,
isResponse = hasId and (hasResult or hasError). -/
def isValidJSONRPCMessage (message : WireMessage) : Bool :=
  if !message.isObject then
    false
  else if message.jsonrpc ≠ some "2.0" then
    false
  else
    let hasMethod := message.hasMethod
    let hasId := message.hasId
    let hasResult := message.hasResult
    let hasError := message.hasError
    let isRequest := hasMethod && hasId
    let isNotification := hasMethod && !hasId
    let isResponse := hasId && (hasResult || hasError)
    isRequest || isNotification || isResponse

/-- Observable outcome of the ws.onmessage handler for one inbound payload:
whether the payload was delivered to the onmessage callback, whether the
onerror callback was invoked, and whether the handler closed the
connection. -/
structure InboundOutcome where
  delivered : Bool
  errorReported : Bool
  closedConnection : Bool
deriving DecidableEq, Repr

/-- Translation of the ws.onmessage handler (WebSocketTransport.ts lines
74-91), with a registered onmessage callback. The inbound payload is none
when JSON.parse throws, otherwise some parsed message. Valid messages are
delivered; invalid or unparseable ones are reported through handleError and
dropped. The handler never closes the connection. -/
def handleIncoming (payload : Option WireMessage) : InboundOutcome :=
  match payload with
  | none => ⟨false, true, false⟩
  | some message =>
    if isValidJSONRPCMessage message then
      ⟨true, false, false⟩
    else
      ⟨false, true, false⟩

/-- Request shape in the words of the claim: method and id present. -/
def requestShape (m : WireMessage) : Bool :=
  m.hasMethod && m.hasId

/-- Notification shape in the words of the claim: method present, id
absent. -/
def notificationShape (m : WireMessage) : Bool :=
  m.hasMethod && !m.hasId

/-- Response shape in the words of the claim: id present and exactly one of
result or error present. -/
def responseShapeClaim (m : WireMessage) : Bool :=
  m.hasId && (m.hasResult ^^ m.hasError)

/-- Response shape as the code actually tests it: id present and at least
one of result or error present. -/
def responseShapeCode (m : WireMessage) : Bool :=
  m.hasId && (m.hasResult || m.hasError)

/-- Number of the claim wording shapes a message matches. -/
def shapeCount (m : WireMessage) : Nat :=
  (if requestShape m then 1 else 0) +
    (if notificationShape m then 1 else 0) +
    (if responseShapeClaim m then 1 else 0)

/-- Deliverability in the words of the claim: carries jsonrpc 2.0 and is
classifiable as exactly one of request, notification, response (with the
response shape demanding exactly one of result or error). Stated from the
claim wording, for comparison against the code. -/
def claimedDeliverable (m : WireMessage) : Bool :=
  m.isObject && (m.jsonrpc == some "2.0") && (shapeCount m == 1)

/-- A payload that is simultaneously a request (method and id) and a
response (id and result): the code delivers it, the claim would drop it. -/
def overlapMessage : WireMessage :=
  ⟨true, some "2.0", true, true, true, false⟩

/-- Browser WebSocket ready states; the transport only ever compares the
ready state against OPEN. -/
inductive ReadyState
  | connecting
  | opened
  | closing
  | closed
deriving DecidableEq, Repr

/-- Mutable fields of the WebSocketTransport class (WebSocketTransport.ts
lines 21-27): the underlying socket (none when the ws field is null),
the resolved config values used by reconnection, the outbound message
queue, the reconnect counter, whether a reconnect timer is pending, and
the isStarted / isClosed flags. -/
structure TransportState where
  ws : Option ReadyState
  reconnectAttempts : Nat
  reconnectDelay : Nat
  messageQueue : List WireMessage
  reconnectCount : Nat
  reconnectTimer : Bool
  isStarted : Bool
  isClosed : Bool
deriving DecidableEq, Repr

/-- Translation of WebSocketTransport.scheduleReconnect (lines 124-141):
returns the updated state and the delay of the timer it scheduled, none if
a timer was already pending. The delay is reconnectDelay times 2 to the
power (reconnectCount - 1) computed after the increment. -/
def scheduleReconnect (s : TransportState) : TransportState × Option Nat :=
  if s.reconnectTimer then
    (s, none)
  else
    let c := s.reconnectCount + 1
    ({ s with reconnectCount := c, reconnectTimer := true },
      some (s.reconnectDelay * 2 ^ (c - 1)))

/-- Observable outcome of one ws.onclose event. -/
structure CloseOutcome where
  state : TransportState
  scheduledDelay : Option Nat
  oncloseFired : Bool
deriving DecidableEq, Repr

/-- Translation of the ws.onclose handler (lines 94-106): the socket field
is nulled; if the close was not requested by close() and the reconnect
counter is below the attempt ceiling, a reconnect is scheduled, otherwise
the terminal onclose notification fires. -/
def handleClose (s : TransportState) : CloseOutcome :=
  let s0 := { s with ws := none }
  if !s0.isClosed && decide (s0.reconnectCount < s0.reconnectAttempts) then
    let (s1, d) := scheduleReconnect s0
    ⟨s1, d, false⟩
  else
    ⟨s0, none, true⟩

/-- Translation of WebSocketTransport.send (lines 146-165), with the list
of messages already written to the socket passed alongside the state:
invalid messages fail, messages sent while the socket is not OPEN are
appended to the queue, and otherwise the message is written out. -/
def send (message : WireMessage) (s : TransportState) (sent : List WireMessage) :
    Except String (TransportState × List WireMessage) :=
  if !isValidJSONRPCMessage message then
    .error "Invalid JSON-RPC message format"
  else if s.ws ≠ some ReadyState.opened then
    .ok ({ s with messageQueue := s.messageQueue ++ [message] }, sent)
  else
    .ok (s, sent ++ [message])

/-- One while-loop iteration per fuel unit of
WebSocketTransport.flushMessageQueue (lines 170-179): while the queue is
nonempty and the socket is OPEN, shift the head off the queue and re-send
it (a send failure is reported and the loop continues). -/
def flushLoop : Nat → TransportState → List WireMessage →
    TransportState × List WireMessage
  | 0, s, sent => (s, sent)
  | n + 1, s, sent =>
    match s.messageQueue with
    | [] => (s, sent)
    | m :: rest =>
      if s.ws = some ReadyState.opened then
        match send m { s with messageQueue := rest } sent with
        | .ok (s1, sent1) => flushLoop n s1 sent1
        | .error _ => flushLoop n { s with messageQueue := rest } sent
      else (s, sent)

/-- WebSocketTransport.flushMessageQueue: the loop runs at most
queue-length iterations because each iteration shifts one message and the
socket stays OPEN throughout the synchronous loop. -/
def flushMessageQueue (s : TransportState) (sent : List WireMessage) :
    TransportState × List WireMessage :=
  flushLoop s.messageQueue.length s sent

/-- Translation of the ws.onopen handler (lines 67-71) at the point a
(re)connection succeeds: the socket becomes OPEN, the reconnect counter
resets to 0, and the queue is flushed. -/
def handleOpen (s : TransportState) (sent : List WireMessage) :
    TransportState × List WireMessage :=
  flushMessageQueue { s with ws := some ReadyState.opened, reconnectCount := 0 } sent

/-- Translation of WebSocketTransport.close (lines 184-207): marks the
transport closed, clears the reconnect timer, closes and nulls the socket,
clears the message queue, and fires the onclose notification. -/
def close (s : TransportState) : TransportState × Bool :=
  ({ s with isClosed := true, isStarted := false, reconnectTimer := false,
            ws := none, messageQueue := [] }, true)

/-- Accumulated observation of a run of consecutive failing connections:
the scheduled reconnect delays in order, how many times the terminal
onclose notification fired, and the final state. -/
structure BackoffRun where
  delays : List Nat
  oncloseCount : Nat
  final : TransportState
deriving DecidableEq, Repr

/-- Run n consecutive unexpected close events. After each close that
schedules a reconnect, the timer fires (clearing the timer field) and the
reconnection attempt fails, producing the next close event. -/
def failRun : Nat → TransportState → BackoffRun
  | 0, s => ⟨[], 0, s⟩
  | n + 1, s =>
    let o := handleClose s
    match o.scheduledDelay with
    | some d =>
      let r := failRun n { o.state with reconnectTimer := false }
      ⟨d :: r.delays, (if o.oncloseFired then 1 else 0) + r.oncloseCount, r.final⟩
    | none =>
      let r := failRun n o.state
      ⟨r.delays, (if o.oncloseFired then 1 else 0) + r.oncloseCount, r.final⟩

/-- A live connected transport configured with the given reconnect delay
and attempt ceiling, before the first unexpected close. -/
def connectedState (d attempts : Nat) : TransportState :=
  { ws := some ReadyState.opened
    reconnectAttempts := attempts
    reconnectDelay := d
    messageQueue := []
    reconnectCount := 0
    reconnectTimer := false
    isStarted := true
    isClosed := false }

/-- Send a list of messages in order, threading state and the sent log. -/
def sendAll : List WireMessage → TransportState → List WireMessage →
    Except String (TransportState × List WireMessage)
  | [], s, sent => .ok (s, sent)
  | m :: rest, s, sent => do
    let (s1, sent1) ← send m s sent
    sendAll rest s1 sent1

end WebSocketTransport

/-- Transport types supported by the runtime
(src/mcpclient/index.ts line 10). -/
inductive TransportType
  | stdio
  | websocket
  | sse
  | streamableHttp
deriving DecidableEq, Repr

/-- The slice of a plugin configuration object the verified operations
inspect: an optional command string (stdio) and an optional url. -/
structure PluginConfig where
  command : Option String
  url : Option String
deriving DecidableEq, Repr

/-- A registered transport plugin as seen by the registry: an identity (to
distinguish instances registered for the same type) and its declared
metadata transport type. -/
structure Plugin where
  id : Nat
  transportType : TransportType
deriving DecidableEq, Repr

namespace PluginRegistry

/-- Association-list embedding of a JS Map: overwrite keeps the original
entry position, inserts append at the end. -/
def mapSet {α : Type} : List (TransportType × α) → TransportType → α →
    List (TransportType × α)
  | [], k, v => [(k, v)]
  | (k', v') :: rest, k, v =>
    if k' = k then (k, v) :: rest else (k', v') :: mapSet rest k v

/-- Lookup in the association-list embedding of a JS Map. -/
def mapGet {α : Type} : List (TransportType × α) → TransportType → Option α
  | [], _ => none
  | (k', v) :: rest, k => if k' = k then some v else mapGet rest k

/-- Deletion in the association-list embedding of a JS Map. -/
def mapDelete {α : Type} : List (TransportType × α) → TransportType →
    List (TransportType × α)
  | [], _ => []
  | (k', v) :: rest, k =>
    if k' = k then mapDelete rest k else (k', v) :: mapDelete rest k

/-- The two maps of the PluginRegistry class
(PluginRegistry.ts lines 6-7). -/
structure RegistryState where
  plugins : List (TransportType × Plugin)
  initialized : List (TransportType × Bool)
deriving DecidableEq, Repr

/-- A freshly constructed registry. -/
def emptyRegistry : RegistryState := ⟨[], []⟩

/-- Translation of PluginRegistry.register (lines 9-25): stores the plugin
under its declared transport type (replacing any prior registration, which
only logs a warning) and resets the initialized flag for that type to
false. -/
def register (s : RegistryState) (p : Plugin) : RegistryState :=
  { plugins := mapSet s.plugins p.transportType p
    initialized := mapSet s.initialized p.transportType false }

/-- Error raised when no plugin is registered for a transport type. -/
inductive RegistryError
  | unknownTransport (t : TransportType)
deriving DecidableEq, Repr

/-- Translation of PluginRegistry.getInitializedPlugin (lines 31-44):
fails when no plugin is registered for the type; otherwise, when the
initialized flag for the type is not yet true, invokes the plugin's
one-time initialization with the config and records the flag. Returns the
updated registry, the plugin, and whether initialization was invoked on
this call. -/
def getInitializedPlugin (s : RegistryState) (t : TransportType)
    (_config : PluginConfig) :
    Except RegistryError (RegistryState × Plugin × Bool) :=
  match mapGet s.plugins t with
  | none => .error (.unknownTransport t)
  | some p =>
    if (mapGet s.initialized t).getD false then
      .ok (s, p, false)
    else
      .ok ({ s with initialized := mapSet s.initialized t true }, p, true)

/-- Translation of PluginRegistry.listAvailable (lines 46-48). -/
def listAvailable (s : RegistryState) : List TransportType :=
  s.plugins.map (·.1)

/-- Translation of PluginRegistry.unregister (lines 54-67): when a plugin
is registered for the type, disconnects it best-effort and removes both
map entries; otherwise does nothing. -/
def unregister (s : RegistryState) (t : TransportType) : RegistryState :=
  match mapGet s.plugins t with
  | some _ =>
    { plugins := mapDelete s.plugins t
      initialized := mapDelete s.initialized t }
  | none => s

/-- Translation of PluginRegistry.unregisterAll (lines 69-72). -/
def unregisterAll (s : RegistryState) : RegistryState :=
  (listAvailable s).foldl unregister s

/-- The registry operations of claim C10. -/
inductive RegistryOp
  | register (p : Plugin)
  | getInitialized (t : TransportType) (config : PluginConfig)
  | unregister (t : TransportType)
  | unregisterAll
deriving DecidableEq, Repr

/-- State effect of one registry operation (a failing
getInitializedPlugin leaves the state unchanged). -/
def applyOp (s : RegistryState) : RegistryOp → RegistryState
  | .register p => register s p
  | .getInitialized t config =>
    match getInitializedPlugin s t config with
    | .ok (s1, _, _) => s1
    | .error _ => s
  | .unregister t => unregister s t
  | .unregisterAll => unregisterAll s

/-- State after a sequence of registry operations. -/
def applyOps (s : RegistryState) (ops : List RegistryOp) : RegistryState :=
  ops.foldl applyOp s

/-- The invariant of claim C10: a type has an initialization flag exactly
when a plugin is registered for it. -/
def keysAligned (s : RegistryState) : Prop :=
  ∀ t, (mapGet s.plugins t).isSome = (mapGet s.initialized t).isSome

end PluginRegistry

namespace McpClient

/-- Normalized capability snapshot (McpClient.ts lines 18-23), with the
tool, resource and prompt payloads abstracted to names. -/
structure PrimitivesResponse where
  tools : List String
  resources : List String
  prompts : List String
  timestamp : Nat
deriving DecidableEq, Repr

/-- Cache time-to-live (McpClient.ts line 36): 5 minutes. -/
def CACHE_TTL : Nat := 300000

/-- Fixed protocol-client handshake timeout
(McpClient.ts line 151). -/
def connectionTimeout : Nat := 30000

/-- Mutable fields of the McpClient class relevant to connection lifecycle
and caching (McpClient.ts lines 28-36): presence of the protocol client,
the active plugin and transport, the connected flag, the health timer, and
the primitives cache with its fill time. -/
structure ClientState where
  client : Bool
  activePlugin : Bool
  activeTransport : Bool
  isConnectedFlag : Bool
  healthCheckTimer : Bool
  primitivesCache : Option PrimitivesResponse
  primitivesCacheTime : Nat
deriving DecidableEq, Repr

/-- Translation of McpClient.clearPrimitivesCache (lines 385-388). -/
def clearPrimitivesCache (s : ClientState) : ClientState :=
  { s with primitivesCache := none, primitivesCacheTime := 0 }

/-- Translation of McpClient.stopHealthMonitoring (lines 464-469). -/
def stopHealthMonitoring (s : ClientState) : ClientState :=
  { s with healthCheckTimer := false }

/-- Translation of McpClient.cleanup (lines 232-256): stops the health
timer, closes and nulls the protocol client, disconnects and nulls the
active plugin, nulls the transport, lowers the connected flag, and clears
the primitives cache. Errors from the close and disconnect calls are
logged and swallowed. -/
def cleanup (s : ClientState) : ClientState :=
  let s1 := stopHealthMonitoring s
  let s2 := { s1 with client := false }
  let s3 := { s2 with activePlugin := false }
  let s4 := { s3 with activeTransport := false, isConnectedFlag := false }
  clearPrimitivesCache s4

/-- The four failure points of a connect attempt, in the order they occur
inside McpClient.performConnection (lines 118-197): plugin resolution
(registry lookup or plugin initialization), support validation, transport
establishment, and the protocol-client handshake (including its 30s
timeout). -/
inductive ConnectFailure
  | pluginResolution
  | unsupportedConfig
  | transportConnect
  | handshakeTimeout
deriving DecidableEq, Repr

/-- Translation of McpClient.performConnection (lines 118-197),
parameterized by which step (if any) fails. Failures before the protocol
client is constructed reach the catch branch with the entry state;
a handshake failure reaches it with the client field already set. The
catch branch awaits cleanup before re-raising the error. On success the
connection handles are stored, the cache is cleared and the health timer
is started when the configured interval is positive. -/
def performConnection (s : ClientState) (healthInterval : Nat)
    (failAt : Option ConnectFailure) : ClientState × Option ConnectFailure :=
  match failAt with
  | some ConnectFailure.pluginResolution =>
    (cleanup s, some ConnectFailure.pluginResolution)
  | some ConnectFailure.unsupportedConfig =>
    (cleanup s, some ConnectFailure.unsupportedConfig)
  | some ConnectFailure.transportConnect =>
    (cleanup s, some ConnectFailure.transportConnect)
  | some ConnectFailure.handshakeTimeout =>
    (cleanup { s with client := true }, some ConnectFailure.handshakeTimeout)
  | none =>
    let s1 := { s with client := true, activePlugin := true,
                       activeTransport := true, isConnectedFlag := true }
    let s2 := clearPrimitivesCache s1
    ({ s2 with healthCheckTimer := decide (0 < healthInterval) }, none)

/-- Observational characterization of the Disconnected state of a
manager: no timer, no protocol client, no active plugin or transport,
connected flag down, empty primitives cache. -/
def isDisconnectedState (s : ClientState) : Bool :=
  !s.healthCheckTimer && !s.client && !s.activePlugin &&
    !s.activeTransport && !s.isConnectedFlag && s.primitivesCache.isNone

/-- Translation of McpClient.isCacheValid (lines 390-392). Times are
epoch milliseconds; Nat truncated subtraction agrees with the JS number
subtraction here, since a negative JS difference and a 0 truncated
difference are both below the TTL. -/
def isCacheValid (s : ClientState) (now : Nat) : Bool :=
  decide (now - s.primitivesCacheTime < CACHE_TTL)

/-- What the active plugin's discovery round returned, abstracted to the
names of the discovered primitives. -/
structure Discovered where
  tools : List String
  resources : List String
  prompts : List String
deriving DecidableEq, Repr

/-- Translation of McpClient.getPrimitives (lines 294-349), with the
current time and the discovery result passed explicitly: fails when not
connected; returns the cached snapshot unchanged when forceRefresh is
false, a cache is present and it is younger than the TTL; otherwise
performs discovery, stores the fresh snapshot timestamped now, and
returns it. The third component records whether discovery was
performed. -/
def getPrimitives (s : ClientState) (forceRefresh : Bool) (now : Nat)
    (discovered : Discovered) :
    Except String (ClientState × PrimitivesResponse × Bool) :=
  if !(s.isConnectedFlag && s.activePlugin && s.client) then
    .error "Not connected to any MCP server"
  else
    match s.primitivesCache, !forceRefresh && isCacheValid s now with
    | some cached, true => .ok (s, cached, false)
    | _, _ =>
      let response : PrimitivesResponse :=
        ⟨discovered.tools, discovered.resources, discovered.prompts, now⟩
      .ok ({ s with primitivesCache := some response,
                    primitivesCacheTime := now }, response, true)

/-- Status of one performConnection attempt task, split at its await
suspension points (McpClient.ts lines 118-197): spawned but suspended at
the registry resolution await (the synchronous prefix up to line 132);
plugin.connect invoked and the handshake pending (lines 139-159); and the
two resolutions. Resolution with success stores the handles and raises
the connected flag (lines 162-178); resolution with failure runs cleanup
(lines 179-196). -/
inductive AttemptStatus
  | idle
  | started
  | connecting
  | resolvedOk
  | resolvedFail
deriving DecidableEq, Repr

/-- Which attempt slot a promise or waiter refers to; two concurrent
connect calls give rise to at most two attempts. -/
inductive AttemptRef
  | first
  | second
deriving DecidableEq, Repr

/-- Program counter of one connect call (McpClient.ts lines 81-116), split
at its await suspension points: at entry (the synchronous prefix through
line 109 runs atomically); awaiting an attempt found pending in
connectionPromise (line 94); awaiting the attempt this call itself started
(line 112); returned normally; or ended rethrowing the attempt error. -/
inductive CallPc
  | entry
  | waitShared (r : AttemptRef)
  | waitOwn (r : AttemptRef)
  | retOk
  | retErr
deriving DecidableEq, Repr

/-- The two concurrent connect callers. -/
inductive ThreadId
  | A
  | B
deriving DecidableEq, Repr

/-- Global state of the two-caller connect interleaving: both program
counters, the status of the two attempt slots, the connectionPromise
field (holding which attempt it references, none when null), the
connected flag, and how many times plugin.connect was invoked (the number
of transport establishments: process spawns / socket opens). Both calls
request the same transport type, so the type fields are omitted. -/
structure ConnState where
  pcA : CallPc
  pcB : CallPc
  att1 : AttemptStatus
  att2 : AttemptStatus
  connectionPromise : Option AttemptRef
  isConnectedFlag : Bool
  connectCount : Nat
deriving DecidableEq, Repr

/-- Status of an attempt slot. -/
def attOf (c : ConnState) : AttemptRef → AttemptStatus
  | AttemptRef.first => c.att1
  | AttemptRef.second => c.att2

/-- Update an attempt slot. -/
def setAtt (c : ConnState) : AttemptRef → AttemptStatus → ConnState
  | AttemptRef.first, a => { c with att1 := a }
  | AttemptRef.second, a => { c with att2 := a }

/-- Program counter of a thread. -/
def pcOf (c : ConnState) : ThreadId → CallPc
  | ThreadId.A => c.pcA
  | ThreadId.B => c.pcB

/-- Update a thread program counter. -/
def setPc (c : ConnState) : ThreadId → CallPc → ConnState
  | ThreadId.A, pc => { c with pcA := pc }
  | ThreadId.B, pc => { c with pcB := pc }

/-- First idle attempt slot, used when a call starts a fresh
performConnection. -/
def freeSlot (c : ConnState) : Option AttemptRef :=
  if c.att1 = AttemptStatus.idle then some AttemptRef.first
  else if c.att2 = AttemptStatus.idle then some AttemptRef.second
  else none

/-- A call starts a fresh attempt (line 109): performConnection is
invoked - its synchronous prefix runs inside this same event-loop
segment - the resulting promise is stored in connectionPromise, and the
call suspends awaiting it (line 112). With two callers a free slot always
exists; the fallback is unreachable. -/
def startFresh (c : ConnState) (i : ThreadId) : ConnState :=
  match freeSlot c with
  | some r =>
    setPc (setAtt { c with connectionPromise := some r } r AttemptStatus.started)
      i (CallPc.waitOwn r)
  | none => setPc c i CallPc.retErr

/-- Synchronous entry segment of connect (lines 81-112): return at once
when already connected with the requested type; otherwise suspend on a
pending connectionPromise when one exists; otherwise start a fresh
attempt. Both callers use the same type, so the switch-type disconnect
branch (line 104) is not taken. -/
def entryStep (c : ConnState) (i : ThreadId) : ConnState :=
  if c.isConnectedFlag then setPc c i CallPc.retOk
  else
    match c.connectionPromise with
    | some r => setPc c i (CallPc.waitShared r)
    | none => startFresh c i

/-- some true when the attempt resolved successfully, some false when it
rejected, none while unresolved. -/
def resolvedStatus : AttemptStatus → Option Bool
  | AttemptStatus.resolvedOk => some true
  | AttemptStatus.resolvedFail => some false
  | _ => none

/-- Resumption segment of a suspended caller, when its awaited attempt has
resolved. A caller awaiting a shared pending attempt (lines 93-101)
returns when the attempt succeeded and the manager is connected; on
rejection it nulls connectionPromise (line 99) and falls through to start
its own fresh attempt (line 109). The caller that owns the attempt
resumes at the finally clause (line 113-115), which unconditionally nulls
connectionPromise, and then returns or rethrows. -/
def threadStep (c : ConnState) (i : ThreadId) : Option ConnState :=
  match pcOf c i with
  | CallPc.entry => some (entryStep c i)
  | CallPc.waitShared r =>
    match resolvedStatus (attOf c r) with
    | some true =>
      some (if c.isConnectedFlag then setPc c i CallPc.retOk else startFresh c i)
    | some false =>
      some (startFresh { c with connectionPromise := none } i)
    | none => none
  | CallPc.waitOwn r =>
    match resolvedStatus (attOf c r) with
    | some ok =>
      some (setPc { c with connectionPromise := none } i
        (if ok then CallPc.retOk else CallPc.retErr))
    | none => none
  | _ => none

/-- Microtask steps of an attempt: resuming after the registry await
invokes plugin.connect (the transport establishment being counted) and
suspends on it and the handshake; the handshake then resolves, either
successfully (handles stored, connected flag raised) or, when allowFail
is set, with a rejection whose catch branch runs cleanup (lowering the
connected flag) before rejecting the promise. -/
def attemptStep (allowFail : Bool) (c : ConnState) (r : AttemptRef) :
    List ConnState :=
  match attOf c r with
  | AttemptStatus.started =>
    [setAtt { c with connectCount := c.connectCount + 1 } r AttemptStatus.connecting]
  | AttemptStatus.connecting =>
    setAtt { c with isConnectedFlag := true } r AttemptStatus.resolvedOk ::
      (if allowFail then
        [setAtt { c with isConnectedFlag := false } r AttemptStatus.resolvedFail]
      else [])
  | _ => []

/-- All enabled event-loop steps from a state: either suspended caller may
resume and either attempt may progress, in any order. -/
def step (allowFail : Bool) (c : ConnState) : List ConnState :=
  (threadStep c ThreadId.A).toList ++ (threadStep c ThreadId.B).toList ++
    attemptStep allowFail c AttemptRef.first ++
    attemptStep allowFail c AttemptRef.second

/-- Both calls at entry on a freshly constructed manager. -/
def initState : ConnState :=
  ⟨CallPc.entry, CallPc.entry, AttemptStatus.idle, AttemptStatus.idle,
    none, false, 0⟩

/-- Interleavings of the two connect calls: every state the event loop can
reach from the initial state. -/
inductive Reachable (allowFail : Bool) : ConnState → Prop
  | init : Reachable allowFail initState
  | step {c c' : ConnState} : Reachable allowFail c → c' ∈ step allowFail c →
      Reachable allowFail c'

/-- Executable membership test on state lists. -/
def memb (c : ConnState) (l : List ConnState) : Bool :=
  l.any (fun x => decide (x = c))

/-- One breadth-first layer: successors of the frontier not yet visited. -/
def exploreAux (allowFail : Bool) :
    Nat → List ConnState → List ConnState → List ConnState
  | 0, visited, _ => visited
  | n + 1, visited, frontier =>
    let succ := frontier.flatMap (step allowFail)
    let fresh := succ.foldl
      (fun a c => if memb c visited || memb c a then a else a ++ [c]) []
    match fresh with
    | [] => visited
    | _ => exploreAux allowFail n (visited ++ fresh) fresh

/-- The explored state space. -/
def explore (allowFail : Bool) (fuel : Nat) : List ConnState :=
  exploreAux allowFail fuel [initState] [initState]

/-- The state space of the machine where the handshake may fail. -/
def reachSetFull : List ConnState := explore true 32

/-- The state space of the machine where every handshake succeeds. -/
def reachSetOk : List ConnState := explore false 32

/-- The list contains the initial state and is closed under steps. -/
def closedUnder (allowFail : Bool) (l : List ConnState) : Bool :=
  memb initState l &&
    l.all (fun c => (step allowFail c).all (fun c' => memb c' l))

/-- An attempt slot holds an in-flight transport establishment. -/
def inflight : AttemptStatus → Bool
  | AttemptStatus.started => true
  | AttemptStatus.connecting => true
  | _ => false

/-- No state has two attempts in flight simultaneously. -/
def singleFlightOk (l : List ConnState) : Bool :=
  l.all (fun c => !(inflight c.att1 && inflight c.att2))

/-- Every terminal state of the success machine performed exactly one
transport establishment. -/
def terminalCountOk (l : List ConnState) : Bool :=
  l.all (fun c => !(step false c).isEmpty || c.connectCount == 1)

end McpClient

namespace StdioPlugin

/-- A spawned child process. Modelled from the Node.js child_process
documented semantics: the killed property is set to true after kill()
successfully SENDS a signal to the process; it does not indicate that the
process has terminated. The alive field tracks whether the process is
actually still running; survivesSigterm says whether this particular
process ignores or outlives SIGTERM through the grace period. -/
structure ChildProcess where
  alive : Bool
  killedFlag : Bool
  survivesSigterm : Bool
deriving DecidableEq, Repr

/-- The two signals the plugin sends. -/
inductive Signal
  | sigterm
  | sigkill
deriving DecidableEq, Repr

/-- Modelled from the Node.js child_process documented semantics of
subprocess.kill: sending a signal marks killed true; SIGKILL always
terminates the process; SIGTERM terminates it only when the process does
not survive it. -/
def ChildProcess.kill (p : ChildProcess) : Signal → ChildProcess
  | Signal.sigterm => { p with killedFlag := true,
                               alive := p.alive && p.survivesSigterm }
  | Signal.sigkill => { p with killedFlag := true, alive := false }

/-- Private state fields of the StdioPlugin class
(StdioPlugin.ts lines 27-30): the transport handle (an identifier, none
when null), the child process handle, the connected flag and the stored
config. -/
structure PluginState where
  transport : Option Nat
  process : Option ChildProcess
  connected : Bool
  config : Option PluginConfig
deriving DecidableEq, Repr

/-- Translation of StdioPlugin.isSupported (lines 183-191): requires a
command field holding a nonempty string. -/
def isSupported (config : PluginConfig) : Bool :=
  match config.command with
  | some c => decide (0 < c.length)
  | none => false

/-- Translation of StdioPlugin.connect (lines 47-131): when already
connected with a live transport handle, returns that handle and changes
nothing; otherwise validates the config, spawns a fresh child process,
creates a fresh transport, marks the plugin connected and stores the
config. The result carries the returned transport handle and whether a
process was spawned. -/
def connect (s : PluginState) (config : PluginConfig)
    (freshProcess : ChildProcess) (freshTransportId : Nat) :
    Except String (PluginState × Nat × Bool) :=
  match s.connected, s.transport with
  | true, some t => .ok (s, t, false)
  | _, _ =>
    if !isSupported config then
      .error "Invalid STDIO configuration: missing required command field"
    else
      .ok ({ transport := some freshTransportId
             process := some freshProcess
             connected := true
             config := some config }, freshTransportId, true)

/-- Observable trace of one disconnect call: whether SIGTERM was sent, how
long the grace period wait was, whether SIGKILL was sent, and the process
object as it was when the handle got nulled. -/
structure DisconnectTrace where
  sigtermSent : Bool
  gracePeriodMs : Nat
  sigkillSent : Bool
  finalProcess : Option ChildProcess
deriving DecidableEq, Repr

/-- Translation of StdioPlugin.disconnect (lines 137-170): lowers the
connected flag, closes and nulls the transport; when a process handle
exists, sends SIGTERM, waits a fixed 1000 ms grace period, then sends
SIGKILL exactly when the killed property is still false, and nulls the
handle; finally nulls the stored config. -/
def disconnect (s : PluginState) : PluginState × DisconnectTrace :=
  let s1 := { s with connected := false, transport := none }
  match s.process with
  | none => ({ s1 with config := none }, ⟨false, 0, false, none⟩)
  | some p =>
    let p1 := p.kill Signal.sigterm
    let doForceKill := !p1.killedFlag
    let p2 := if doForceKill then p1.kill Signal.sigkill else p1
    ({ s1 with process := none, config := none },
      ⟨true, 1000, doForceKill, some p2⟩)

/-- Translation of StdioPlugin.isConnected (lines 175-177). -/
def isConnected (s : PluginState) : Bool :=
  match s.process with
  | some p => s.connected && !p.killedFlag
  | none => false

end StdioPlugin

/-
Concrete instances used by witnesses and counterexamples.
-/

namespace WebSocketTransport

/-- A started, not yet connected transport with default config. -/
def wsDisconnected : TransportState :=
  ⟨none, 3, 1000, [], 0, false, true, false⟩

/-- A valid concrete request message. -/
def msgA : WireMessage := ⟨true, some "2.0", true, true, false, false⟩

/-- A valid concrete notification message. -/
def msgB : WireMessage := ⟨true, some "2.0", true, false, false, false⟩

end WebSocketTransport

namespace McpClient

/-- A snapshot cached at time 0. -/
def cachedResponse : PrimitivesResponse := ⟨[], [], [], 0⟩

/-- A connected manager whose cache was filled at time 0. -/
def connectedCachedAt0 : ClientState :=
  ⟨true, true, true, true, true, some cachedResponse, 0⟩

/-- A connected manager with an empty cache. -/
def connectedNoCache : ClientState :=
  ⟨true, true, true, true, true, none, 0⟩

/-- An empty discovery result. -/
def noDiscovery : Discovered := ⟨[], [], []⟩

end McpClient

namespace PluginRegistry

/-- A concrete stdio plugin instance. -/
def pluginA : Plugin := ⟨1, TransportType.stdio⟩

/-- A second, distinct plugin instance for the same transport type. -/
def pluginB : Plugin := ⟨2, TransportType.stdio⟩

/-- A concrete stdio configuration. -/
def cfg0 : PluginConfig := ⟨some "server", none⟩

/-- A registry holding pluginA under stdio. -/
def regWithA : RegistryState := register emptyRegistry pluginA

end PluginRegistry

namespace StdioPlugin

/-- A live child process that ignores SIGTERM through the grace period. -/
def stubbornProcess : ChildProcess := ⟨true, false, true⟩

/-- A connected plugin whose child process survives SIGTERM. -/
def stubbornState : PluginState :=
  ⟨some 1, some stubbornProcess, true, some ⟨some "server", none⟩⟩

/-- A live, well-behaved child process. -/
def liveProcess : ChildProcess := ⟨true, false, false⟩

/-- A connected stdio plugin with transport handle 7. -/
def connectedPlugin : PluginState :=
  ⟨some 7, some liveProcess, true, some ⟨some "server", none⟩⟩

end StdioPlugin

/-
Theorems.
-/

namespace WebSocketTransport

/-- The validator equals: object, jsonrpc tag 2.0, and at least one of the
request, notification, or code response shapes. -/
theorem isValid_eq (m : WireMessage) :
    isValidJSONRPCMessage m =
      (m.isObject && (m.jsonrpc == some "2.0") &&
        (requestShape m || notificationShape m || responseShapeCode m)) := by
  rcases m with ⟨o, j, hm, hi, hr, he⟩
  by_cases hj : j = some "2.0" <;>
    simp [isValidJSONRPCMessage, requestShape, notificationShape, responseShapeCode, hj]

/-- Propositional form of the validator. -/
theorem valid_iff (m : WireMessage) :
    isValidJSONRPCMessage m = true ↔
      m.isObject = true ∧ m.jsonrpc = some "2.0" ∧
        (requestShape m || notificationShape m || responseShapeCode m) = true := by
  rw [isValid_eq]
  simp [Bool.and_eq_true, and_assoc]

/-- C2 counterexample: the payload with jsonrpc 2.0 carrying method, id
and result at once matches both the request shape and the claim response
shape (two shapes, not exactly one), so under the claim it must be dropped;
the code delivers it to the onmessage handler without reporting an
error. -/
theorem C2_counterexample :
    handleIncoming (some overlapMessage) =
      ({ delivered := true, errorReported := false,
         closedConnection := false } : InboundOutcome) ∧
    requestShape overlapMessage = true ∧
    responseShapeClaim overlapMessage = true ∧
    shapeCount overlapMessage = 2 ∧
    claimedDeliverable overlapMessage = false := by
  refine ⟨?_, rfl, rfl, rfl, ?_⟩ <;> decide

/-- C2 (amended): an inbound payload is delivered to the onmessage handler
iff it is an object carrying jsonrpc 2.0 that matches at least one of the
shapes request (method and id), notification (method, no id), or response
(id and at least one of result or error); every other payload - including
an unparseable one - is reported through the error callback and dropped,
and the handler never closes the connection. -/
theorem C2_delivery (payload : Option WireMessage) :
    ((handleIncoming payload).delivered = true ↔
      ∃ m, payload = some m ∧ m.isObject = true ∧ m.jsonrpc = some "2.0" ∧
        (requestShape m || notificationShape m || responseShapeCode m) = true) ∧
    (handleIncoming payload).errorReported = !(handleIncoming payload).delivered ∧
    (handleIncoming payload).closedConnection = false := by
  cases payload with
  | none => simp [handleIncoming]
  | some m =>
    by_cases hvm : isValidJSONRPCMessage m = true
    · refine ⟨?_, by simp [handleIncoming, hvm], by simp [handleIncoming, hvm]⟩
      simp only [handleIncoming, hvm, if_true]
      constructor
      · intro _
        exact ⟨m, rfl, (valid_iff m).mp hvm⟩
      · intro _
        trivial
    · have hvf : isValidJSONRPCMessage m = false := by
        simpa using hvm
      refine ⟨?_, by simp [handleIncoming, hvf], by simp [handleIncoming, hvf]⟩
      simp only [handleIncoming, hvf, Bool.false_eq_true, if_false]
      constructor
      · intro h
        exact absurd h (by simp)
      · rintro ⟨m', hm', hobj, hj, hsh⟩
        cases hm'
        exact hvm ((valid_iff m).mpr ⟨hobj, hj, hsh⟩)

/-- C3: with reconnectDelay d and reconnectAttempts 3, four consecutive
unexpected closes (the initial drop and the three failed reconnection
attempts) schedule exactly three reconnects with delays d, 2d, 4d; the
terminal onclose notification fires exactly once, and a further close
schedules nothing. -/
theorem C3_backoff (d : Nat) :
    (failRun 4 (connectedState d 3)).delays = [d, 2 * d, 4 * d] ∧
    (failRun 4 (connectedState d 3)).oncloseCount = 1 ∧
    (handleClose (failRun 4 (connectedState d 3)).final).scheduledDelay = none := by
  refine ⟨?_, ?_, ?_⟩ <;>
    simp [failRun, handleClose, scheduleReconnect, connectedState, Nat.mul_comm]

/-- Sending while the socket is not OPEN appends to the queue in call
order and never fails. -/
theorem sendAll_queued (msgs : List WireMessage) :
    ∀ (s : TransportState) (sent : List WireMessage),
      s.ws ≠ some ReadyState.opened →
      (∀ m ∈ msgs, isValidJSONRPCMessage m = true) →
      sendAll msgs s sent =
        .ok ({ s with messageQueue := s.messageQueue ++ msgs }, sent) := by
  induction msgs with
  | nil => intro s sent hws hv; simp [sendAll]
  | cons m rest ih =>
    intro s sent hws hv
    have hm : isValidJSONRPCMessage m = true := hv m (by simp)
    have hrest : ∀ x ∈ rest, isValidJSONRPCMessage x = true := by
      intro x hx; exact hv x (by simp [hx])
    have hsq : send m s sent =
        .ok ({ s with messageQueue := s.messageQueue ++ [m] }, sent) := by
      simp [send, hm, hws]
    rw [sendAll, hsq]
    show sendAll rest _ _ = _
    rw [ih { s with messageQueue := s.messageQueue ++ [m] } sent hws hrest]
    simp

/-- A state whose queue is empty equals its own queue-clearing update. -/
theorem eta_queue {s : TransportState} (hq : s.messageQueue = []) :
    ({ s with messageQueue := [] } : TransportState) = s := by
  cases s
  simp_all

/-- The flush loop drains a fully valid queue in FIFO order while the
socket stays OPEN. -/
theorem flushLoop_drains (n : Nat) :
    ∀ (s : TransportState) (sent : List WireMessage),
      s.messageQueue.length ≤ n →
      s.ws = some ReadyState.opened →
      (∀ m ∈ s.messageQueue, isValidJSONRPCMessage m = true) →
      flushLoop n s sent = ({ s with messageQueue := [] }, sent ++ s.messageQueue) := by
  induction n with
  | zero =>
    intro s sent hlen hws hv
    have hq : s.messageQueue = [] := List.length_eq_zero.mp (Nat.le_zero.mp hlen)
    rw [flushLoop, hq, List.append_nil, eta_queue hq]
  | succ n ih =>
    intro s sent hlen hws hv
    match hq : s.messageQueue with
    | [] =>
      rw [flushLoop, hq, List.append_nil, eta_queue hq]
    | m :: rest =>
      have hm : isValidJSONRPCMessage m = true := hv m (by simp [hq])
      have hrest : ∀ x ∈ rest, isValidJSONRPCMessage x = true := by
        intro x hx; exact hv x (by simp [hq, hx])
      have hlen' : rest.length ≤ n := by
        have h2 := hlen; rw [hq] at h2; simpa using h2
      have hws' : ({ s with messageQueue := rest } : TransportState).ws
          = some ReadyState.opened := hws
      have hso : send m ({ s with messageQueue := rest }) sent =
          .ok ({ s with messageQueue := rest }, sent ++ [m]) := by
        simp [send, hm, hws]
      simp only [flushLoop, hq]
      rw [if_pos hws, hso]
      show flushLoop n { s with messageQueue := rest } (sent ++ [m]) = _
      rw [ih { s with messageQueue := rest } (sent ++ [m]) hlen' hws' hrest]
      simp

/-- C4: while the socket is not OPEN, sending N valid messages appends all
of them to the queue in call order and none fails; on the next successful
(re)connection the queued messages are written out in the same FIFO order
after the previously sent ones and the queue is empty afterward; an
explicit close() clears the queue. -/
theorem C4_queue_fifo (msgs : List WireMessage) (s : TransportState)
    (sent : List WireMessage)
    (hws : s.ws ≠ some ReadyState.opened)
    (hv : ∀ m ∈ msgs, isValidJSONRPCMessage m = true)
    (hq : ∀ m ∈ s.messageQueue, isValidJSONRPCMessage m = true) :
    sendAll msgs s sent =
      .ok ({ s with messageQueue := s.messageQueue ++ msgs }, sent) ∧
    handleOpen { s with messageQueue := s.messageQueue ++ msgs } sent =
      ({ s with ws := some ReadyState.opened, reconnectCount := 0, messageQueue := [] },
        sent ++ (s.messageQueue ++ msgs)) ∧
    (close { s with messageQueue := s.messageQueue ++ msgs }).1.messageQueue = [] := by
  refine ⟨sendAll_queued msgs s sent hws hv, ?_, rfl⟩
  have hall : ∀ m ∈ s.messageQueue ++ msgs, isValidJSONRPCMessage m = true := by
    intro m hm
    rcases List.mem_append.mp hm with h | h
    · exact hq m h
    · exact hv m h
  unfold handleOpen flushMessageQueue
  rw [flushLoop_drains _ _ _ le_rfl rfl hall]

/-- Witness for C4 at a concrete disconnected transport and two concrete
valid messages. -/
theorem C4_queue_fifo_witness :
    sendAll [msgA, msgB] wsDisconnected [] =
      .ok ({ wsDisconnected with messageQueue := wsDisconnected.messageQueue ++ [msgA, msgB] }, []) ∧
    handleOpen { wsDisconnected with messageQueue := wsDisconnected.messageQueue ++ [msgA, msgB] } [] =
      ({ wsDisconnected with ws := some ReadyState.opened, reconnectCount := 0, messageQueue := [] },
        [] ++ (wsDisconnected.messageQueue ++ [msgA, msgB])) ∧
    (close { wsDisconnected with messageQueue := wsDisconnected.messageQueue ++ [msgA, msgB] }).1.messageQueue
      = [] :=
  C4_queue_fifo [msgA, msgB] wsDisconnected [] (by decide) (by decide) (by decide)

end WebSocketTransport

namespace McpClient

/-- C5: every failing connect attempt - plugin resolution, support
validation, transport establishment, or the protocol-client handshake
timeout - runs full cleanup before the error is re-raised: afterwards the
health timer is stopped, the protocol client, plugin and transport are
nulled, the connected flag is down and the primitives cache is cleared,
i.e. the manager is observationally Disconnected, and the same error is
re-raised to the caller. -/
theorem C5_cleanup_on_failure (s : ClientState) (healthInterval : Nat)
    (f : ConnectFailure) :
    isDisconnectedState (performConnection s healthInterval (some f)).1 = true ∧
    (performConnection s healthInterval (some f)).2 = some f := by
  cases f <;>
    simp [performConnection, cleanup, stopHealthMonitoring, clearPrimitivesCache,
      isDisconnectedState]

/-- C6 counterexample: with the cache filled at time 0, a successful
cache-hit call at 299999 ms is followed, 1 ms later (less than 5 minutes
after that successful call, forceRefresh false, no intervening disconnect),
by a call at 300000 ms that performs discovery and returns a snapshot with
a different timestamp, because the TTL is measured from the cache fill
time, not from the last successful call. -/
theorem C6_counterexample :
    getPrimitives connectedCachedAt0 false 299999 noDiscovery =
      .ok (connectedCachedAt0, cachedResponse, false) ∧
    300000 - 299999 < CACHE_TTL ∧
    getPrimitives connectedCachedAt0 false 300000 noDiscovery =
      .ok ({ connectedCachedAt0 with
              primitivesCache := some ⟨[], [], [], 300000⟩,
              primitivesCacheTime := 300000 },
        ⟨[], [], [], 300000⟩, true) := by
  refine ⟨by rfl, by decide, by rfl⟩

/-- C6 (amended): a second getPrimitives call made less than 5 minutes
after a successful one that performed discovery (i.e. less than the TTL
after the cache was filled), with forceRefresh false and no intervening
state change, returns the cached snapshot itself with its timestamp and
performs no discovery; and a getPrimitives(true) call on any connected
manager always performs discovery and returns a snapshot timestamped with
the call time, regardless of cache age. -/
theorem C6_cache (s s1 sf : ClientState) (r1 : PrimitivesResponse) (fr : Bool)
    (t1 t2 tf : Nat) (d1 d2 df : Discovered)
    (h1 : getPrimitives s fr t1 d1 = .ok (s1, r1, true))
    (hlt : t2 - t1 < CACHE_TTL)
    (hcf : (sf.isConnectedFlag && sf.activePlugin && sf.client) = true) :
    getPrimitives s1 false t2 d2 = .ok (s1, r1, false) ∧
    r1.timestamp = t1 ∧
    getPrimitives sf true tf df =
      .ok ({ sf with
              primitivesCache := some ⟨df.tools, df.resources, df.prompts, tf⟩,
              primitivesCacheTime := tf },
        ⟨df.tools, df.resources, df.prompts, tf⟩, true) := by
  have part3 : getPrimitives sf true tf df =
      .ok ({ sf with
              primitivesCache := some ⟨df.tools, df.resources, df.prompts, tf⟩,
              primitivesCacheTime := tf },
        ⟨df.tools, df.resources, df.prompts, tf⟩, true) := by
    rcases hcc : sf.primitivesCache with _ | c0 <;>
      simp [getPrimitives, hcf, hcc]
  cases hcb : (s.isConnectedFlag && s.activePlugin && s.client) with
  | false =>
    simp only [getPrimitives, hcb] at h1
    simp at h1
  | true =>
    rcases hcache : s.primitivesCache with _ | cached <;>
      cases hcv : (!fr && isCacheValid s t1)
    case none.false | none.true | some.false =>
      simp only [getPrimitives, hcb, hcache, hcv] at h1
      simp only [Bool.not_true, Bool.false_eq_true, if_false,
        Except.ok.injEq, Prod.mk.injEq] at h1
      obtain ⟨hs1, hr1, -⟩ := h1
      subst hs1
      subst hr1
      refine ⟨?_, rfl, part3⟩
      simp [getPrimitives, hcb, isCacheValid, hlt]
    case some.true =>
      simp only [getPrimitives, hcb, hcache, hcv] at h1
      simp at h1

/-- Witness for C6 at a connected manager with an empty cache: discovery
at time 100, second call at time 200. -/
theorem C6_cache_witness :
    getPrimitives { connectedNoCache with
        primitivesCache := some ⟨[], [], [], 100⟩, primitivesCacheTime := 100 }
        false 200 noDiscovery =
      .ok ({ connectedNoCache with
              primitivesCache := some ⟨[], [], [], 100⟩, primitivesCacheTime := 100 },
        ⟨[], [], [], 100⟩, false) ∧
    (⟨[], [], [], 100⟩ : PrimitivesResponse).timestamp = 100 ∧
    getPrimitives connectedNoCache true 300 noDiscovery =
      .ok ({ connectedNoCache with
              primitivesCache := some ⟨[], [], [], 300⟩, primitivesCacheTime := 300 },
        ⟨[], [], [], 300⟩, true) :=
  C6_cache connectedNoCache
    { connectedNoCache with
        primitivesCache := some ⟨[], [], [], 100⟩, primitivesCacheTime := 100 }
    connectedNoCache ⟨[], [], [], 100⟩ false 100 200 300 noDiscovery noDiscovery
    noDiscovery (by rfl) (by decide) (by decide)

end McpClient

namespace PluginRegistry

/-- Lookup after a map write: the written key reads back the new value,
other keys are unchanged. -/
theorem mapGet_mapSet {α : Type} (l : List (TransportType × α)) (k k' : TransportType)
    (v : α) :
    mapGet (mapSet l k v) k' = if k' = k then some v else mapGet l k' := by
  induction l with
  | nil =>
    by_cases h : k' = k
    · subst h; simp [mapSet, mapGet]
    · simp [mapSet, mapGet, h, Ne.symm h]
  | cons hd tl ih =>
    rcases hd with ⟨a, b⟩
    by_cases h1 : a = k
    · subst h1
      by_cases h2 : k' = a
      · subst h2; simp [mapSet, mapGet]
      · simp [mapSet, mapGet, h2, Ne.symm h2]
    · by_cases h2 : a = k'
      · subst h2
        simp [mapSet, mapGet, h1, fun hh : a = k => h1 hh]
      · simp [mapSet, mapGet, h1, h2, ih]

/-- Lookup after a map deletion: the deleted key reads none, other keys
are unchanged. -/
theorem mapGet_mapDelete {α : Type} (l : List (TransportType × α)) (k k' : TransportType) :
    mapGet (mapDelete l k) k' = if k' = k then none else mapGet l k' := by
  induction l with
  | nil => simp [mapDelete, mapGet]
  | cons hd tl ih =>
    rcases hd with ⟨a, b⟩
    by_cases h1 : a = k
    · subst h1
      by_cases h2 : k' = a
      · subst h2; simp [mapDelete, mapGet, ih]
      · simp [mapDelete, mapGet, h2, Ne.symm h2, ih]
    · by_cases h2 : a = k'
      · subst h2
        simp [mapDelete, mapGet, h1, Ne.symm h1, ih]
      · simp [mapDelete, mapGet, h1, h2, ih]

/-- The empty registry satisfies the alignment invariant. -/
theorem keysAligned_empty : keysAligned emptyRegistry := by
  intro t
  simp [emptyRegistry, mapGet]

/-- register preserves the alignment invariant. -/
theorem keysAligned_register {s : RegistryState} (h : keysAligned s) (p : Plugin) :
    keysAligned (register s p) := by
  intro t
  by_cases ht : t = p.transportType <;>
    simp [register, mapGet_mapSet, ht, h t]

/-- A getInitializedPlugin call preserves the alignment invariant. -/
theorem keysAligned_getInit {s : RegistryState} (h : keysAligned s)
    (t : TransportType) (cfg : PluginConfig) :
    keysAligned (applyOp s (RegistryOp.getInitialized t cfg)) := by
  unfold applyOp
  rcases hp : mapGet s.plugins t with _ | p
  · simp only [getInitializedPlugin, hp]
    exact h
  · simp only [getInitializedPlugin, hp]
    by_cases hf : (mapGet s.initialized t).getD false = true
    · rw [if_pos hf]
      exact h
    · rw [if_neg hf]
      intro t'
      by_cases ht' : t' = t
      · subst ht'; simp [mapGet_mapSet, hp]
      · simp [mapGet_mapSet, ht', h t']

/-- unregister preserves the alignment invariant. -/
theorem keysAligned_unregister {s : RegistryState} (h : keysAligned s)
    (t : TransportType) :
    keysAligned (unregister s t) := by
  unfold unregister
  rcases hp : mapGet s.plugins t with _ | p
  · exact h
  · intro t'
    by_cases ht' : t' = t <;>
      simp [mapGet_mapDelete, ht', h t']

/-- Folding unregister over any key list preserves the invariant. -/
theorem keysAligned_foldl_unregister (ts : List TransportType) :
    ∀ s : RegistryState, keysAligned s → keysAligned (ts.foldl unregister s) := by
  induction ts with
  | nil => intro s h; exact h
  | cons t ts ih => intro s h; exact ih _ (keysAligned_unregister h t)

/-- Every registry operation preserves the alignment invariant. -/
theorem keysAligned_applyOp {s : RegistryState} (h : keysAligned s)
    (op : RegistryOp) : keysAligned (applyOp s op) := by
  cases op with
  | register p => exact keysAligned_register h p
  | getInitialized t cfg => exact keysAligned_getInit h t cfg
  | unregister t => exact keysAligned_unregister h t
  | unregisterAll => exact keysAligned_foldl_unregister _ s h

/-- The invariant holds after any operation sequence from the empty
registry. -/
theorem keysAligned_applyOps (ops : List RegistryOp) :
    ∀ s : RegistryState, keysAligned s → keysAligned (applyOps s ops) := by
  induction ops with
  | nil => intro s h; exact h
  | cons op ops ih =>
    intro s h
    exact ih _ (keysAligned_applyOp h op)

/-- C7: getInitializedPlugin fails with UnknownTransport when no plugin is
registered for the type; otherwise it returns the registered plugin,
invoking its initialization exactly when the flag for the type is not yet
set, and a second call for the same type returns the same plugin from the
same state without invoking initialization again. -/
theorem C7_lazy_init (s : RegistryState) (t : TransportType) (p : Plugin)
    (cfg cfg2 : PluginConfig) :
    (mapGet s.plugins t = none →
      getInitializedPlugin s t cfg = .error (.unknownTransport t)) ∧
    (mapGet s.plugins t = some p →
      ∃ s1 : RegistryState,
        getInitializedPlugin s t cfg =
          .ok (s1, p, !(mapGet s.initialized t).getD false) ∧
        getInitializedPlugin s1 t cfg2 = .ok (s1, p, false)) := by
  constructor
  · intro hnone
    simp [getInitializedPlugin, hnone]
  · intro hsome
    cases hflag : (mapGet s.initialized t).getD false
    · refine ⟨{ s with initialized := mapSet s.initialized t true }, ?_, ?_⟩
      · simp [getInitializedPlugin, hsome, hflag]
      · have hstill : mapGet ({ s with initialized := mapSet s.initialized t true } :
            RegistryState).plugins t = some p := hsome
        have hflag2 : mapGet (mapSet s.initialized t true) t = some true := by
          rw [mapGet_mapSet]; simp
        simp [getInitializedPlugin, hstill, hflag2]
    · refine ⟨s, ?_, ?_⟩ <;> simp [getInitializedPlugin, hsome, hflag]

/-- Witness for C7: a registry holding pluginA under stdio initializes it
on the first call and not on the second. -/
theorem C7_lazy_init_witness :
    ∃ s1 : RegistryState,
      getInitializedPlugin regWithA TransportType.stdio cfg0 =
        .ok (s1, pluginA, !(mapGet regWithA.initialized TransportType.stdio).getD false) ∧
      getInitializedPlugin s1 TransportType.stdio cfg0 = .ok (s1, pluginA, false) :=
  (C7_lazy_init regWithA TransportType.stdio pluginA cfg0 cfg0).2 (by decide)

/-- C10: after any sequence of register, getInitializedPlugin, unregister
and unregisterAll operations from a fresh registry, the set of types with
an initialization flag equals the set of registered types; and register on
an already-registered type replaces the plugin, resets its flag to false,
and the next getInitializedPlugin call initializes the replacement. -/
theorem C10_registry_invariant (ops : List RegistryOp) (s : RegistryState)
    (pOld pNew : Plugin) (cfg : PluginConfig)
    (_hreg : mapGet s.plugins pNew.transportType = some pOld) :
    keysAligned (applyOps emptyRegistry ops) ∧
    mapGet (register s pNew).plugins pNew.transportType = some pNew ∧
    mapGet (register s pNew).initialized pNew.transportType = some false ∧
    getInitializedPlugin (register s pNew) pNew.transportType cfg =
      .ok ({ register s pNew with
              initialized := mapSet (register s pNew).initialized pNew.transportType true },
        pNew, true) := by
  refine ⟨keysAligned_applyOps ops emptyRegistry keysAligned_empty, ?_, ?_, ?_⟩
  · simp [register, mapGet_mapSet]
  · simp [register, mapGet_mapSet]
  · have h1 : mapGet (register s pNew).plugins pNew.transportType = some pNew := by
      simp [register, mapGet_mapSet]
    have h2 : (mapGet (register s pNew).initialized pNew.transportType).getD false
        = false := by
      simp [register, mapGet_mapSet]
    simp [getInitializedPlugin, h1, h2]

/-- Witness for C10: replacing pluginA by pluginB under stdio. -/
theorem C10_registry_invariant_witness :
    keysAligned (applyOps emptyRegistry
      [RegistryOp.register pluginA,
        RegistryOp.getInitialized TransportType.stdio cfg0,
        RegistryOp.unregister TransportType.stdio,
        RegistryOp.unregisterAll]) ∧
    mapGet (register regWithA pluginB).plugins pluginB.transportType = some pluginB ∧
    mapGet (register regWithA pluginB).initialized pluginB.transportType = some false ∧
    getInitializedPlugin (register regWithA pluginB) pluginB.transportType cfg0 =
      .ok ({ register regWithA pluginB with
              initialized := mapSet (register regWithA pluginB).initialized
                pluginB.transportType true },
        pluginB, true) :=
  C10_registry_invariant
    [RegistryOp.register pluginA,
      RegistryOp.getInitialized TransportType.stdio cfg0,
      RegistryOp.unregister TransportType.stdio,
      RegistryOp.unregisterAll]
    regWithA pluginA pluginB cfg0 (by decide)

end PluginRegistry

namespace StdioPlugin

/-- C8 evidence: on a live child process that survives SIGTERM through the
1 s grace period, disconnect sends SIGTERM, waits 1000 ms, and does NOT
send SIGKILL - the killed property became true when the SIGTERM signal was
delivered, so the force-kill guard never fires and the process is left
alive - while the transport, process handle and stored config are nulled
and isConnected is false afterwards. -/
theorem C8_sigterm_survivor :
    disconnect stubbornState =
      (⟨none, none, false, none⟩,
        ⟨true, 1000, false, some ⟨true, true, true⟩⟩) ∧
    isConnected (disconnect stubbornState).1 = false := by
  constructor <;> rfl

/-- C9: a connect call on an already connected plugin with a live
transport handle returns the existing transport, spawns nothing, and
leaves the whole plugin state unchanged, for any config argument. -/
theorem C9_connect_idempotent (s : PluginState) (tid : Nat) (cfg : PluginConfig)
    (p : ChildProcess) (n : Nat)
    (hc : s.connected = true) (ht : s.transport = some tid) :
    connect s cfg p n = .ok (s, tid, false) := by
  unfold connect
  rw [hc, ht]

/-- Witness for C9: a connected plugin with transport handle 7 and an
invalid (command-less) config argument. -/
theorem C9_connect_idempotent_witness :
    connect connectedPlugin ⟨none, none⟩ liveProcess 99 =
      .ok (connectedPlugin, 7, false) :=
  C9_connect_idempotent connectedPlugin 7 ⟨none, none⟩ liveProcess 99 rfl rfl

end StdioPlugin

namespace McpClient

/-- memb decides list membership. -/
theorem memb_iff (c : ConnState) (l : List ConnState) : memb c l = true ↔ c ∈ l := by
  simp [memb, List.any_eq_true]

/-- Every reachable state lies in any step-closed list containing the
initial state. -/
theorem reachable_mem {af : Bool} {l : List ConnState}
    (hcl : closedUnder af l = true) :
    ∀ c : ConnState, Reachable af c → c ∈ l := by
  have hcl' := hcl
  rw [closedUnder, Bool.and_eq_true] at hcl'
  obtain ⟨hinit, hallcl⟩ := hcl'
  have hstep : ∀ c ∈ l, ∀ c' ∈ step af c, memb c' l = true := by
    intro c hc c' hc'
    have h3 := List.all_eq_true.mp hallcl c hc
    exact List.all_eq_true.mp h3 c' hc'
  intro c h
  induction h with
  | init => exact (memb_iff _ _).mp hinit
  | step h1 h2 ih => exact (memb_iff _ _).mp (hstep _ ih _ h2)

/-- C1 counterexample: an interleaving of two concurrent connect calls
with the same transport type in which the first attempt establishes a
transport and then fails its handshake; the awaiting second call observes
the rejection and starts a fresh attempt, so the completed run performed
two plugin.connect establishments, not exactly one. -/
theorem C1_counterexample :
    Reachable true ⟨CallPc.retErr, CallPc.retOk, AttemptStatus.resolvedFail,
      AttemptStatus.resolvedOk, none, true, 2⟩ ∧
    (step true ⟨CallPc.retErr, CallPc.retOk, AttemptStatus.resolvedFail,
      AttemptStatus.resolvedOk, none, true, 2⟩).isEmpty = true ∧
    (⟨CallPc.retErr, CallPc.retOk, AttemptStatus.resolvedFail,
      AttemptStatus.resolvedOk, none, true, 2⟩ : ConnState).connectCount = 2 := by
  refine ⟨?_, by decide, rfl⟩
  have h0 : Reachable true initState := Reachable.init
  have h1 : Reachable true ⟨CallPc.waitOwn AttemptRef.first, CallPc.entry,
      AttemptStatus.started, AttemptStatus.idle, some AttemptRef.first, false, 0⟩ :=
    h0.step (by decide)
  have h2 : Reachable true ⟨CallPc.waitOwn AttemptRef.first,
      CallPc.waitShared AttemptRef.first, AttemptStatus.started, AttemptStatus.idle,
      some AttemptRef.first, false, 0⟩ := h1.step (by decide)
  have h3 : Reachable true ⟨CallPc.waitOwn AttemptRef.first,
      CallPc.waitShared AttemptRef.first, AttemptStatus.connecting, AttemptStatus.idle,
      some AttemptRef.first, false, 1⟩ := h2.step (by decide)
  have h4 : Reachable true ⟨CallPc.waitOwn AttemptRef.first,
      CallPc.waitShared AttemptRef.first, AttemptStatus.resolvedFail, AttemptStatus.idle,
      some AttemptRef.first, false, 1⟩ := h3.step (by decide)
  have h5 : Reachable true ⟨CallPc.waitOwn AttemptRef.first,
      CallPc.waitOwn AttemptRef.second, AttemptStatus.resolvedFail,
      AttemptStatus.started, some AttemptRef.second, false, 1⟩ := h4.step (by decide)
  have h6 : Reachable true ⟨CallPc.waitOwn AttemptRef.first,
      CallPc.waitOwn AttemptRef.second, AttemptStatus.resolvedFail,
      AttemptStatus.connecting, some AttemptRef.second, false, 2⟩ := h5.step (by decide)
  have h7 : Reachable true ⟨CallPc.waitOwn AttemptRef.first,
      CallPc.waitOwn AttemptRef.second, AttemptStatus.resolvedFail,
      AttemptStatus.resolvedOk, some AttemptRef.second, true, 2⟩ := h6.step (by decide)
  have h8 : Reachable true ⟨CallPc.retErr, CallPc.waitOwn AttemptRef.second,
      AttemptStatus.resolvedFail, AttemptStatus.resolvedOk, none, true, 2⟩ :=
    h7.step (by decide)
  exact h8.step (by decide)

/-- C1 (amended): the connection-attempt guard is single-flight - in every
interleaving of two concurrent connect calls with the same transport type,
at no point are two transport establishments in flight simultaneously (a
call that finds an attempt pending awaits it instead of racing it); and
when the pending attempt succeeds, every completed run performs exactly
one plugin.connect (one process spawn / one socket open) - a second
establishment can only happen after the first attempt has already failed. -/
theorem C1_single_flight :
    (∀ c : ConnState, Reachable true c →
      (inflight c.att1 && inflight c.att2) = false) ∧
    (∀ c : ConnState, Reachable false c → (step false c).isEmpty = true →
      c.connectCount = 1) := by
  have hclF : closedUnder true reachSetFull = true := by decide
  have hclO : closedUnder false reachSetOk = true := by decide
  have hsf : singleFlightOk reachSetFull = true := by decide
  have htc : terminalCountOk reachSetOk = true := by decide
  constructor
  · intro c hr
    have hm := reachable_mem hclF c hr
    have h1 := List.all_eq_true.mp hsf c hm
    cases hx : inflight c.att1 <;> cases hy : inflight c.att2 <;> simp_all
  · intro c hr hterm
    have hm := reachable_mem hclO c hr
    have h1 := List.all_eq_true.mp htc c hm
    rw [hterm] at h1
    simpa using h1

/-- Witness for C1: the initial state has no attempt in flight, and the
complete success run of two concurrent connect calls ends with exactly one
establishment. -/
theorem C1_single_flight_witness :
    (inflight initState.att1 && inflight initState.att2) = false ∧
    (⟨CallPc.retOk, CallPc.retOk, AttemptStatus.resolvedOk, AttemptStatus.idle,
      none, true, 1⟩ : ConnState).connectCount = 1 := by
  constructor
  · exact C1_single_flight.1 initState Reachable.init
  · refine C1_single_flight.2 _ ?_ (by decide)
    have h0 : Reachable false initState := Reachable.init
    have h1 : Reachable false ⟨CallPc.waitOwn AttemptRef.first, CallPc.entry,
        AttemptStatus.started, AttemptStatus.idle, some AttemptRef.first, false, 0⟩ :=
      h0.step (by decide)
    have h2 : Reachable false ⟨CallPc.waitOwn AttemptRef.first,
        CallPc.waitShared AttemptRef.first, AttemptStatus.started, AttemptStatus.idle,
        some AttemptRef.first, false, 0⟩ := h1.step (by decide)
    have h3 : Reachable false ⟨CallPc.waitOwn AttemptRef.first,
        CallPc.waitShared AttemptRef.first, AttemptStatus.connecting, AttemptStatus.idle,
        some AttemptRef.first, false, 1⟩ := h2.step (by decide)
    have h4 : Reachable false ⟨CallPc.waitOwn AttemptRef.first,
        CallPc.waitShared AttemptRef.first, AttemptStatus.resolvedOk, AttemptStatus.idle,
        some AttemptRef.first, true, 1⟩ := h3.step (by decide)
    have h5 : Reachable false ⟨CallPc.retOk, CallPc.waitShared AttemptRef.first,
        AttemptStatus.resolvedOk, AttemptStatus.idle, none, true, 1⟩ :=
      h4.step (by decide)
    exact h5.step (by decide)

end McpClient
